import Mathlib

/-!
Verification development for the DICOM MRI generator
(generate_dicom_mri.py).  The Python source is shallowly embedded:

* Python integers become Nat (all quantities here are nonnegative);
  Python floor division // and % become Nat division and mod.
* Python floats are modelled exactly: a decimal literal is an exact
  rational num / 10 ^ f, and float(...) is IEEE-754 binary64
  round-to-nearest-even, implemented on integers (mantissa, exponent).
  Multiplying a binary64 value by 1024 / 1048576 / 1073741824 is an exact
  exponent shift, and int(...) truncates toward zero, which on
  nonnegative values is the floor.
* Functions that can raise (ValueError, ZeroDivisionError, OverflowError)
  return Option; none models the raise.
* The process-wide pseudorandom state of the random module is modelled as
  a stream rand : Nat -> Nat of raw entropy words, one word consumed per
  bounded draw (randint, choice, uniform), in program order.  The pydicom
  generate_uid entropy is a stream uid : Nat -> String, and datetime.now
  is an input supplying the formatted date and time strings.
* numpy.random is modelled as an abstract generator state S with a step
  function; np.random.seed(s) replaces the state by seedInit s.
-/

/-! ### Size parser (generate_dicom_mri.py, parse_size, lines 21-52) -/

/-- ASCII upper-casing of one character, the effect of str.upper() on the
ASCII inputs the size pattern can accept. -/
def upperChar (c : Char) : Char :=
  if 'a' ≤ c ∧ c ≤ 'z' then Char.ofNat (c.toNat - 32) else c

/-- Value of a list of decimal digit characters, most significant first. -/
def digitsToNat (cs : List Char) : ℕ :=
  cs.foldl (fun a c => a * 10 + (c.toNat - 48)) 0

/-- Recognised unit suffix of the size pattern, returned as the exponent k
with multiplier 2 ^ k (KB = 1024, MB = 1024 ^ 2, GB = 1024 ^ 3),
the multipliers table at lines 43-47. -/
def unitExp : List Char → Option ℕ
  | ['K', 'B'] => some 10
  | ['M', 'B'] => some 20
  | ['G', 'B'] => some 30
  | _ => none

/-- Python re end-anchor: with no MULTILINE flag, a dollar also matches
just before one trailing newline, so the unit part may carry one final
newline character. -/
def stripDollarNewline (cs : List Char) : List Char :=
  if cs.getLast? = some '\n' then cs.dropLast else cs

/-- Matcher for the anchored pattern (digits (dot digits)?)(KB|MB|GB) of
line 34, applied to the upper-cased input.  On success it returns
(num, f, k, nd): the magnitude is the exact rational num / 10 ^ f, the
multiplier is 2 ^ k, and nd is the total count of digits (used to bound
the exponent search of the float model). -/
def matchSizePattern (cs : List Char) : Option (ℕ × ℕ × ℕ × ℕ) :=
  let ipr := cs.span Char.isDigit
  if ipr.1.isEmpty then none
  else
    match ipr.2 with
    | '.' :: rest =>
      let fpr := rest.span Char.isDigit
      if fpr.1.isEmpty then none
      else
        match unitExp (stripDollarNewline fpr.2) with
        | none => none
        | some k =>
          some (digitsToNat ipr.1 * 10 ^ fpr.1.length + digitsToNat fpr.1,
                fpr.1.length, k, ipr.1.length + fpr.1.length)
    | r1 =>
      match unitExp (stripDollarNewline r1) with
      | none => none
      | some k => some (digitsToNat ipr.1, 0, k, ipr.1.length)

/-- Round-half-to-even of the nonnegative rational a / b (b positive) to a
natural number, the rounding used at each binary64 rounding step. -/
def rheNat (a b : ℕ) : ℕ :=
  let q := a / b
  let r := a % b
  if 2 * r < b then q
  else if b < 2 * r then q + 1
  else if q % 2 = 0 then q else q + 1

/-- Binary exponent search: for positive n and d and enough fuel, returns
the integer e with d * 2 ^ e ≤ n < d * 2 ^ (e + 1), that is the floor of
the base-2 logarithm of n / d. -/
def eAux : ℕ → ℕ → ℕ → ℤ
  | 0, _, _ => 0
  | fuel + 1, n, d =>
    if n < d then eAux fuel (2 * n) d - 1
    else if 2 * d ≤ n then eAux fuel n (2 * d) + 1
    else 0

/-- IEEE-754 binary64 value of the exact decimal num / 10 ^ f, the model
of CPython float() applied to the matched magnitude literal.  The result
(n, e) stands for the value n * 2 ^ (e - 52); for a normal value
2 ^ 52 ≤ n ≤ 2 ^ 53, and for a subnormal one e = -1022 with n < 2 ^ 52.
none models the overflow to infinity.  The fuel bounds the exponent
search; 4 * (digit count) + 64 always suffices, since the magnitude lies
in [10 ^ (-f), 10 ^ nd) and 10 < 2 ^ 4. -/
def float64OfDecimal (fuel num f : ℕ) : Option (ℕ × ℤ) :=
  if num = 0 then some (0, 0)
  else
    let den := 10 ^ f
    let e := eAux fuel num den
    if e < -1022 then some (rheNat (num * 2 ^ 1074) den, -1022)
    else if 1023 < e then none
    else
      let n :=
        if e ≤ 52 then rheNat (num * 2 ^ (52 - e).toNat) den
        else rheNat num (den * 2 ^ (e - 52).toNat)
      if e = 1023 ∧ n = 2 ^ 53 then none else some (n, e)

/-- Model of int(value * multiplier) at line 52: the binary64 value
n * 2 ^ (e - 52) times the multiplier 2 ^ k is an exact exponent shift,
int() truncates (= floor on nonnegative values), and a product reaching
2 ^ 1024 overflows to infinity, on which int() raises OverflowError. -/
def floatTimesPow2Trunc (n : ℕ) (e : ℤ) (k : ℕ) : Option ℕ :=
  if 0 ≤ e - 52 + k then
    if 2 ^ 1024 ≤ n * 2 ^ (e - 52 + k).toNat then none
    else some (n * 2 ^ (e - 52 + k).toNat)
  else some (n / 2 ^ (-(e - 52 + k)).toNat)

/-- Shallow embedding of parse_size (lines 21-52): upper-case the input,
match the anchored size pattern, convert the magnitude literal through
binary64, multiply by the unit multiplier and truncate to an integer.
none models every raising path (ValueError on a failed match,
OverflowError on an infinite product). -/
def parse_size (s : String) : Option ℕ :=
  match matchSizePattern (s.data.map upperChar) with
  | none => none
  | some (num, f, k, nd) =>
    match float64OfDecimal (4 * nd + 64) num f with
    | none => none
    | some (n, e) => floatTimesPow2Trunc n e k

/-- Exact representability of the decimal magnitude num / 10 ^ f by the
binary64 value n * 2 ^ (e - 52), stated over integers to keep it
decidable. -/
def exactFloatRepr (num f n : ℕ) (e : ℤ) : Prop :=
  (52 ≤ e ∧ n * 2 ^ (e - 52).toNat * 10 ^ f = num) ∨
  (e < 52 ∧ n * 10 ^ f = num * 2 ^ (52 - e).toNat)

instance exactFloatReprDecidable (num f n : ℕ) (e : ℤ) :
    Decidable (exactFloatRepr num f n e) := by
  unfold exactFloatRepr
  infer_instance

/-- Size acceptance of main (lines 319-323): the parsed byte count is
rejected when it is not strictly positive, before any file output. -/
def main_accepts_size (s : String) : Option ℕ :=
  match parse_size s with
  | none => none
  | some n => if n = 0 then none else some n

/-! ### Dimension solver (calculate_dimensions, lines 55-100) -/

/-- Metadata overhead estimate of line 67: 100 KiB. -/
def metadata_overhead : ℕ := 100 * 1024

/-- Pixel-data ceiling of line 75: 2 ^ 32 - 1 minus a 10 MiB margin. -/
def MAX_PIXEL_DATA_SIZE : ℕ := 2 ^ 32 - 1 - 10 * 1024 * 1024

/-- Rounding of lines 92-95: round the candidate side length down to a
multiple of 256 when at least 256, else down to a multiple of 128 when at
least 128, else leave it. -/
def mri_round_down (dim : ℕ) : ℕ :=
  if 256 ≤ dim then dim / 256 * 256
  else if 128 ≤ dim then dim / 128 * 128
  else dim

/-- Shallow embedding of calculate_dimensions (lines 55-100).  A zero
frame count raises ZeroDivisionError at line 85 and a budget below the
100 KiB overhead makes pixels_per_frame negative, on which math.sqrt
raises ValueError at line 88; both are none.  Otherwise all quantities
are nonnegative, Python floor division is Nat division, and
int(math.sqrt m) equals Nat.sqrt m because m is at most
MAX_PIXEL_DATA_SIZE / 2 < 2 ^ 31, where the correctly rounded double
square root truncates to the integer square root.  Line 98 takes the
maximum of the rounded dimension and 128. -/
def calculate_dimensions (total_size_bytes num_images : ℕ) : Option (ℕ × ℕ) :=
  if num_images = 0 then none
  else if total_size_bytes < metadata_overhead then none
  else
    let available_bytes := min (total_size_bytes - metadata_overhead) MAX_PIXEL_DATA_SIZE
    let total_pixels := available_bytes / 2
    let pixels_per_frame := total_pixels / num_images
    let dim := max (mri_round_down (Nat.sqrt pixels_per_frame)) 128
    some (dim, dim)

/-! ### Metadata builder (generate_metadata, lines 103-198) -/

/-- Model of random.randint(a, b): a value in [a, b] determined by the
raw entropy word r consumed from the stream. -/
def randint (a b r : ℕ) : ℕ := a + r % (b - a + 1)

/-- Model of random.uniform(a, b) = a + (b - a) * random(), where
random() is a 53-bit value over 2 ^ 53, determined by the consumed
entropy word. -/
def uniformQ (a b : ℚ) (r : ℕ) : ℚ :=
  a + (b - a) * ((r % 2 ^ 53 : ℕ) : ℚ) / 2 ^ 53

/-- Model of random.choice: an element of the list selected by the
consumed entropy word (d is the default for the never-empty lists used
here). -/
def pychoice {α : Type} (l : List α) (d : α) (r : ℕ) : α :=
  l.getD (r % l.length) d

/-- Two-digit zero padding, the 02d format of line 132. -/
def pad2 (n : ℕ) : String :=
  if n < 10 then "0" ++ toString n else toString n

/-- Manufacturer lookup table of lines 158-165: vendor, model, field
strength in tesla. -/
def manufacturers : List (String × String × ℚ) :=
  [("SIEMENS", "Avanto", 3/2),
   ("SIEMENS", "Skyra", 3),
   ("GE MEDICAL SYSTEMS", "Signa HDxt", 3/2),
   ("GE MEDICAL SYSTEMS", "Discovery MR750", 3),
   ("PHILIPS", "Achieva", 3/2),
   ("PHILIPS", "Ingenia", 3)]

/-- Dataset produced by generate_metadata: every attribute the function
assigns, including the file-meta attributes of lines 119-123. -/
structure MetaDS where
  transferSyntaxUID : String
  mediaStorageSOPClassUID : String
  mediaStorageSOPInstanceUID : String
  implementationClassUID : String
  patientName : String
  patientID : String
  patientBirthDate : String
  patientSex : String
  studyInstanceUID : String
  studyDate : String
  studyTime : String
  studyID : String
  accessionNumber : String
  seriesInstanceUID : String
  seriesNumber : ℕ
  seriesDescription : String
  modality : String
  instanceNumber : Option ℕ
  sopClassUID : String
  sopInstanceUID : String
  manufacturer : String
  manufacturerModelName : String
  magneticFieldStrength : ℚ
  imagingFrequency : ℚ
  echoTime : ℚ
  repetitionTime : ℚ
  flipAngle : ℚ
  sliceThickness : ℚ
  spacingBetweenSlices : ℚ
  sequenceName : String
  samplesPerPixel : ℕ
  photometricInterpretation : String
  rows : ℕ
  columns : ℕ
  bitsAllocated : ℕ
  bitsStored : ℕ
  highBit : ℕ
  pixelRepresentation : ℕ
  pixelSpacing : ℚ × ℚ

/-- Shallow embedding of generate_metadata (lines 103-198).  rand is the
random-module entropy stream and rk the position of its next word; the
sixteen bounded draws consume positions rk .. rk + 15 in source order.
uid is the generate_uid entropy stream and uk its next position: line 122
draws the media-storage SOP instance UID, line 123 the implementation
class UID, and lines 136 and 144 draw fresh study and series UIDs only
when no shared UID is passed in.  nowDate and nowTime are the formatted
fields of the single datetime.now() call at line 137. -/
def generate_metadata (num_images width height : ℕ) (instance_number : Option ℕ)
    (study_uid series_uid : Option String) (rand : ℕ → ℕ) (rk : ℕ)
    (uid : ℕ → String) (uk : ℕ) (nowDate nowTime : String) : MetaDS :=
  let mediaSOP := uid uk
  let implUID := uid (uk + 1)
  let patientName := "TEST^PATIENT^" ++ toString (randint 1000 9999 (rand rk))
  let patientID := "PID" ++ toString (randint 100000 999999 (rand (rk + 1)))
  let patientBirthDate :=
    toString (randint 1950 2000 (rand (rk + 2))) ++
      pad2 (randint 1 12 (rand (rk + 3))) ++ pad2 (randint 1 28 (rand (rk + 4)))
  let patientSex := pychoice ["M", "F"] "M" (rand (rk + 5))
  let studyUID := study_uid.getD (uid (uk + 2))
  let ukSeries := uk + 2 + (if study_uid.isSome then 0 else 1)
  let studyID := "STD" ++ toString (randint 1000 9999 (rand (rk + 6)))
  let accession := "ACC" ++ toString (randint 100000 999999 (rand (rk + 7)))
  let seriesUID := series_uid.getD (uid ukSeries)
  let mmf := pychoice manufacturers ("SIEMENS", "Avanto", 3/2) (rand (rk + 8))
  let echoTime := uniformQ 10 30 (rand (rk + 9))
  let repetitionTime := uniformQ 400 800 (rand (rk + 10))
  let flipAngle := uniformQ 60 90 (rand (rk + 11))
  let sliceThickness := uniformQ 1 5 (rand (rk + 12))
  let spacingBetweenSlices := sliceThickness + uniformQ 0 (1/2) (rand (rk + 13))
  let sequenceName :=
    pychoice ["T1_MPRAGE", "T1_SE", "T2_FSE", "T2_FLAIR"] "T1_MPRAGE" (rand (rk + 14))
  let pixel_spacing := uniformQ (1/2) 2 (rand (rk + 15))
  { transferSyntaxUID := "1.2.840.10008.1.2.1"
    mediaStorageSOPClassUID := "1.2.840.10008.5.1.4.1.1.4"
    mediaStorageSOPInstanceUID := mediaSOP
    implementationClassUID := implUID
    patientName := patientName
    patientID := patientID
    patientBirthDate := patientBirthDate
    patientSex := patientSex
    studyInstanceUID := studyUID
    studyDate := nowDate
    studyTime := nowTime
    studyID := studyID
    accessionNumber := accession
    seriesInstanceUID := seriesUID
    seriesNumber := 1
    seriesDescription := "Test MRI Series - " ++ toString num_images ++ " images"
    modality := "MR"
    instanceNumber := instance_number
    sopClassUID := "1.2.840.10008.5.1.4.1.1.4"
    sopInstanceUID := mediaSOP
    manufacturer := mmf.1
    manufacturerModelName := mmf.2.1
    magneticFieldStrength := mmf.2.2
    imagingFrequency := mmf.2.2 * (4258 / 100)
    echoTime := echoTime
    repetitionTime := repetitionTime
    flipAngle := flipAngle
    sliceThickness := sliceThickness
    spacingBetweenSlices := spacingBetweenSlices
    sequenceName := sequenceName
    samplesPerPixel := 1
    photometricInterpretation := "MONOCHROME2"
    rows := height
    columns := width
    bitsAllocated := 16
    bitsStored := 16
    highBit := 15
    pixelRepresentation := 0
    pixelSpacing := (pixel_spacing, pixel_spacing) }

/-- Shallow embedding of the per-instance loop of main (lines 351-374):
the shared study and series UIDs are drawn before the loop (uid positions
0 and 1), then instance i in 1 .. num_images calls generate_metadata with
instance_number = i, the shared UIDs, the next sixteen entropy words of
the random stream and the next two UID draws, and the datetime.now()
values of that iteration. -/
def mainRun (num_images width height : ℕ) (rand : ℕ → ℕ) (uid : ℕ → String)
    (nowDates nowTimes : ℕ → String) : List MetaDS :=
  (List.range num_images).map fun j =>
    generate_metadata num_images width height (some (j + 1)) (some (uid 0)) (some (uid 1))
      rand (16 * j) uid (2 + 2 * j) (nowDates j) (nowTimes j)

/-! ### Pixel synthesizer (generate_pixel_data and generate_single_image,
lines 201-242) -/

/-- One row of np.random.randint(0, 4096, ...): width draws from the
generator state, each reduced into the 12-bit range. -/
def drawRow {S : Type} (next : S → ℕ × S) : ℕ → S → List ℕ × S
  | 0, st => ([], st)
  | w + 1, st =>
    let p := next st
    let rest := drawRow next w p.2
    (p.1 % 4096 :: rest.1, rest.2)

/-- A height-by-width grid of 12-bit samples drawn row-major from the
generator state. -/
def drawGrid {S : Type} (next : S → ℕ × S) (width : ℕ) : ℕ → S → List (List ℕ) × S
  | 0, st => ([], st)
  | h + 1, st =>
    let row := drawRow next width st
    let rest := drawGrid next width h row.2
    (row.1 :: rest.1, rest.2)

/-- A stack of num_images grids drawn in order from the generator
state. -/
def drawFrames {S : Type} (next : S → ℕ × S) (width height : ℕ) :
    ℕ → S → List (List (List ℕ)) × S
  | 0, st => ([], st)
  | n + 1, st =>
    let g := drawGrid next width height st
    let rest := drawFrames next width height n g.2
    (g.1 :: rest.1, rest.2)

/-- Seed handling of lines 214-215 and 236-237: np.random.seed(seed)
replaces the global generator state by the seeded state; with no seed the
incoming state is used unchanged. -/
def npSeedOrKeep {S : Type} (seedInit : ℕ → S) (seed : Option ℕ) (st : S) : S :=
  match seed with
  | some s => seedInit s
  | none => st

/-- Shallow embedding of generate_single_image (lines 224-242): a
height-by-width uint16 grid of 12-bit noise, from the seeded state when a
seed is given. -/
def generate_single_image {S : Type} (next : S → ℕ × S) (seedInit : ℕ → S)
    (width height : ℕ) (seed : Option ℕ) (st : S) : List (List ℕ) × S :=
  drawGrid next width height (npSeedOrKeep seedInit seed st)

/-- Shallow embedding of generate_pixel_data (lines 201-221): a stack of
num_images such grids. -/
def generate_pixel_data {S : Type} (next : S → ℕ × S) (seedInit : ℕ → S)
    (num_images width height : ℕ) (seed : Option ℕ) (st : S) :
    List (List (List ℕ)) × S :=
  drawFrames next width height num_images (npSeedOrKeep seedInit seed st)

/-! ### DICOM encoder (spec section 4.5) -/

/-- Modelled from the spec: one InstanceRecord handed to the encoder, as
described in section 3 of the spec; the pixel payload is a
width-by-height grid of uint16 samples, so its encoded byte length is
width * height * 2. -/
structure InstanceRecord where
  studyInstanceUID : String
  seriesInstanceUID : String
  sopInstanceUID : String
  instanceNumber : ℕ
  width : ℕ
  height : ℕ

/-- Byte length of the pixel-data payload of a record: two bytes per
uint16 sample. -/
def InstanceRecord.pixelDataByteLength (r : InstanceRecord) : ℕ :=
  r.width * r.height * 2

/-- Modelled from the spec: the encoder error taxonomy of section 7 that
the encoding step can report. -/
inductive EncodeError where
  | payloadTooLarge
  | encodingFailure
deriving DecidableEq

/-- Modelled from the spec: the observable header content of one encoded
file (section 4.5): preamble, magic marker, file-meta identifiers and
the 32-bit pixel-data length field. -/
structure EncodedFile where
  preambleBytes : ℕ
  magicMarker : String
  transferSyntaxUID : String
  mediaStorageSOPClassUID : String
  mediaStorageSOPInstanceUID : String
  pixelDataLengthField : ℕ
deriving DecidableEq

/-- Modelled from the spec: the DICOM Encoder of section 4.5 is delegated
by the source to the pydicom library (ds.save_as at line 385) and is not
part of src/; per the spec, a pixel-data payload whose length exceeds the
32-bit length-field capacity must fail with PayloadTooLarge rather than
truncate the length field, and otherwise the length field carries the
exact payload length. -/
def encodeInstance (r : InstanceRecord) : Except EncodeError EncodedFile :=
  if 2 ^ 32 - 1 < r.pixelDataByteLength then
    Except.error EncodeError.payloadTooLarge
  else
    Except.ok
      { preambleBytes := 128
        magicMarker := "DICM"
        transferSyntaxUID := "1.2.840.10008.1.2.1"
        mediaStorageSOPClassUID := "1.2.840.10008.5.1.4.1.1.4"
        mediaStorageSOPInstanceUID := r.sopInstanceUID
        pixelDataLengthField := r.pixelDataByteLength }

/-- Witness stream of pairwise distinct UID strings, standing in for the
uniqueness guarantee of pydicom generate_uid. -/
def uidRep (n : ℕ) : String := String.mk (List.replicate n 'U')

/-! ### Helper lemmas -/

lemma uidRep_injective : Function.Injective uidRep := by
  intro a b hab
  have h2 : (uidRep a).data = (uidRep b).data := congrArg String.data hab
  have h3 : (List.replicate a 'U').length = (List.replicate b 'U').length := by
    simpa [uidRep] using congrArg List.length h2
  simpa using h3

lemma nat_div_eq_div_of_mul_eq (a b c d : ℕ) (hb : 0 < b) (hd : 0 < d)
    (h : a * d = c * b) : a / b = c / d := by
  have h1 : a * d / (b * d) = a / b := Nat.mul_div_mul_right a b hd
  have h2 : c * b / (d * b) = c / d := Nat.mul_div_mul_right c d hb
  rw [← h1, ← h2, h, Nat.mul_comm b d]

lemma mri_round_down_le (d : ℕ) : mri_round_down d ≤ d := by
  unfold mri_round_down
  by_cases h1 : 256 ≤ d
  · rw [if_pos h1]
    exact Nat.div_mul_le_self d 256
  · rw [if_neg h1]
    by_cases h2 : 128 ≤ d
    · rw [if_pos h2]
      exact Nat.div_mul_le_self d 128
    · rw [if_neg h2]

lemma mri_round_down_ge (d : ℕ) (h : 128 ≤ d) : 128 ≤ mri_round_down d := by
  unfold mri_round_down
  by_cases h1 : 256 ≤ d
  · rw [if_pos h1]
    have ha : 1 ≤ d / 256 := (Nat.one_le_div_iff (by norm_num)).mpr h1
    have hb : 1 * 256 ≤ d / 256 * 256 := Nat.mul_le_mul_right 256 ha
    omega
  · rw [if_neg h1, if_pos h]
    have ha : 1 ≤ d / 128 := (Nat.one_le_div_iff (by norm_num)).mpr h
    have hb : 1 * 128 ≤ d / 128 * 128 := Nat.mul_le_mul_right 128 ha
    omega

lemma mri_round_down_mod (d : ℕ) (h : 128 ≤ d) :
    mri_round_down d % 256 = 0 ∨ mri_round_down d % 128 = 0 := by
  unfold mri_round_down
  by_cases h1 : 256 ≤ d
  · rw [if_pos h1]
    left
    exact Nat.mul_mod_left _ 256
  · rw [if_neg h1, if_pos h]
    right
    exact Nat.mul_mod_left _ 128

lemma mri_round_down_eq_self (d : ℕ) (h : d < 128) : mri_round_down d = d := by
  unfold mri_round_down
  rw [if_neg (by omega), if_neg (by omega)]

lemma calculate_dimensions_eq (total num : ℕ) (hnz : num ≠ 0)
    (hov : ¬ total < metadata_overhead) :
    calculate_dimensions total num =
      some (max (mri_round_down (Nat.sqrt
              (min (total - metadata_overhead) MAX_PIXEL_DATA_SIZE / 2 / num))) 128,
            max (mri_round_down (Nat.sqrt
              (min (total - metadata_overhead) MAX_PIXEL_DATA_SIZE / 2 / num))) 128) := by
  unfold calculate_dimensions
  rw [if_neg hnz, if_neg hov]

lemma final_dim_sq_le (pf : ℕ) (hd : 128 ≤ Nat.sqrt pf) :
    max (mri_round_down (Nat.sqrt pf)) 128 * max (mri_round_down (Nat.sqrt pf)) 128 ≤ pf := by
  rw [max_eq_left (mri_round_down_ge _ hd)]
  have hle := mri_round_down_le (Nat.sqrt pf)
  exact le_trans (Nat.mul_le_mul hle hle) (Nat.sqrt_le pf)

lemma final_dim_eq_128 (pf : ℕ) (hd : ¬ 128 ≤ Nat.sqrt pf) :
    max (mri_round_down (Nat.sqrt pf)) 128 = 128 := by
  rw [mri_round_down_eq_self _ (by omega), max_eq_right (by omega)]

lemma floatTimesPow2Trunc_exact (num f k n : ℕ) (e : ℤ)
    (hrep : exactFloatRepr num f n e)
    (hbound : num * 2 ^ k / 10 ^ f < 2 ^ 1024) :
    floatTimesPow2Trunc n e k = some (num * 2 ^ k / 10 ^ f) := by
  have hf : 0 < 10 ^ f := pow_pos (by norm_num) f
  unfold floatTimesPow2Trunc
  rcases hrep with ⟨he, heq⟩ | ⟨he, heq⟩
  · have ht : (0 : ℤ) ≤ e - 52 + k := by omega
    have hdiv : num * 2 ^ k / 10 ^ f = n * 2 ^ (e - 52 + k).toNat := by
      have hpow : (2 : ℕ) ^ (e - 52 + (k : ℤ)).toNat = 2 ^ (e - 52).toNat * 2 ^ k := by
        rw [← pow_add]
        congr 1
        omega
      have hx : num * 2 ^ k = n * 2 ^ (e - 52 + (k : ℤ)).toNat * 10 ^ f := by
        rw [hpow, ← heq]
        ring
      rw [hx, Nat.mul_div_cancel _ hf]
    rw [if_pos ht, ← hdiv, if_neg (not_le.mpr hbound)]
  · by_cases ht : (0 : ℤ) ≤ e - 52 + k
    · have hdiv : num * 2 ^ k / 10 ^ f = n * 2 ^ (e - 52 + k).toNat := by
        have hpow : (2 : ℕ) ^ k = 2 ^ (52 - e).toNat * 2 ^ (e - 52 + (k : ℤ)).toNat := by
          rw [← pow_add]
          congr 1
          omega
        have hx : num * 2 ^ k = n * 2 ^ (e - 52 + (k : ℤ)).toNat * 10 ^ f := by
          calc num * 2 ^ k
              = num * 2 ^ (52 - e).toNat * 2 ^ (e - 52 + (k : ℤ)).toNat := by
                rw [hpow]; ring
            _ = n * 10 ^ f * 2 ^ (e - 52 + (k : ℤ)).toNat := by rw [← heq]
            _ = n * 2 ^ (e - 52 + (k : ℤ)).toNat * 10 ^ f := by ring
        rw [hx, Nat.mul_div_cancel _ hf]
      rw [if_pos ht, ← hdiv, if_neg (not_le.mpr hbound)]
    · rw [if_neg ht]
      have h2 : 0 < 2 ^ (-(e - 52 + (k : ℤ))).toNat := pow_pos (by norm_num) _
      have hmul : (num * 2 ^ k) * 2 ^ (-(e - 52 + (k : ℤ))).toNat = n * 10 ^ f := by
        have hpow : (2 : ℕ) ^ (52 - e).toNat = 2 ^ k * 2 ^ (-(e - 52 + (k : ℤ))).toNat := by
          rw [← pow_add]
          congr 1
          omega
        calc (num * 2 ^ k) * 2 ^ (-(e - 52 + (k : ℤ))).toNat
            = num * (2 ^ k * 2 ^ (-(e - 52 + (k : ℤ))).toNat) := by ring
          _ = num * 2 ^ (52 - e).toNat := by rw [← hpow]
          _ = n * 10 ^ f := heq.symm
      rw [nat_div_eq_div_of_mul_eq (num * 2 ^ k) (10 ^ f) n
            (2 ^ (-(e - 52 + (k : ℤ))).toNat) hf h2 hmul]

/-! ### Claim theorems -/

/-- C1: the spec says patient identity, the manufacturer triple, the
sequence parameters and the pixel spacing are drawn once per StudyContext
and shared by every instance of a run.  The code instead re-draws them
inside generate_metadata, which main calls once per instance: in the run
modelled here (two instances, entropy stream k at position k), the two
instances share the study and series UID but carry different patient
names and patient IDs. -/
theorem mainRun_redraws_study_fields :
    ((mainRun 2 128 128 (fun k => k) (fun _ => "1.2.3") (fun _ => "20240101")
          (fun _ => "120000")).map
        (fun ds => (ds.studyInstanceUID, ds.seriesInstanceUID, ds.patientName, ds.patientID))) =
      [("1.2.3", "1.2.3", "TEST^PATIENT^1000", "PID100001"),
       ("1.2.3", "1.2.3", "TEST^PATIENT^1016", "PID100017")] ∧
    ("TEST^PATIENT^1000" : String) ≠ "TEST^PATIENT^1016" ∧
    ("PID100001" : String) ≠ "PID100017" :=
  ⟨by decide, by decide, by decide⟩

/-- C2 counterexample: at the minimal budget of exactly 100 KiB and one
frame, calculate_dimensions returns the floored minimum geometry 128 x
128, whose pixel bytes 32768 exceed the zero bytes left after
overhead, so the claimed bound w * h * frameCount * 2 ≤ budget - 100 KiB
fails. -/
theorem calculate_dimensions_overshoots_minimal_budget :
    calculate_dimensions 102400 1 = some (128, 128) ∧
    ¬ (128 * 128 * 1 * 2 ≤ 102400 - metadata_overhead) :=
  ⟨by decide, by decide⟩

/-- C2 amended: for every frame count ≥ 1 and every budget of at least
100 KiB plus 32768 bytes per frame (enough that the 128-pixel floor of
line 98 cannot overshoot), calculate_dimensions returns a square geometry
with side at least 128, a multiple of 256 or of 128, whose total pixel
bytes do not exceed the budget after overhead. -/
theorem calculate_dimensions_solver_contract (total num : ℕ) (h1 : 1 ≤ num)
    (h2 : metadata_overhead + 32768 * num ≤ total) :
    ∃ w h, calculate_dimensions total num = some (w, h) ∧ w = h ∧ 128 ≤ w ∧
      (w % 256 = 0 ∨ w % 128 = 0) ∧ w * h * num * 2 ≤ total - metadata_overhead := by
  have hnz : num ≠ 0 := by omega
  have hov : ¬ total < metadata_overhead := by
    have h3 := Nat.le_add_right metadata_overhead (32768 * num)
    omega
  refine ⟨_, _, calculate_dimensions_eq total num hnz hov, rfl, le_max_right _ _, ?_, ?_⟩
  · by_cases hd : 128 ≤ Nat.sqrt (min (total - metadata_overhead) MAX_PIXEL_DATA_SIZE / 2 / num)
    · rw [max_eq_left (mri_round_down_ge _ hd)]
      exact mri_round_down_mod _ hd
    · rw [final_dim_eq_128 _ hd]
      right
      decide
  · by_cases hd : 128 ≤ Nat.sqrt (min (total - metadata_overhead) MAX_PIXEL_DATA_SIZE / 2 / num)
    · have hsq := final_dim_sq_le _ hd
      calc max (mri_round_down (Nat.sqrt
              (min (total - metadata_overhead) MAX_PIXEL_DATA_SIZE / 2 / num))) 128 *
            max (mri_round_down (Nat.sqrt
              (min (total - metadata_overhead) MAX_PIXEL_DATA_SIZE / 2 / num))) 128 * num * 2
            ≤ min (total - metadata_overhead) MAX_PIXEL_DATA_SIZE / 2 / num * num * 2 :=
              Nat.mul_le_mul_right 2 (Nat.mul_le_mul_right num hsq)
        _ ≤ min (total - metadata_overhead) MAX_PIXEL_DATA_SIZE / 2 * 2 :=
              Nat.mul_le_mul_right 2 (Nat.div_mul_le_self _ num)
        _ ≤ min (total - metadata_overhead) MAX_PIXEL_DATA_SIZE :=
              Nat.div_mul_le_self _ 2
        _ ≤ total - metadata_overhead := min_le_left _ _
    · rw [final_dim_eq_128 _ hd]
      have h3 : metadata_overhead = 102400 := rfl
      omega

/-- C2 witness: the amended contract instantiated at a budget of
100 KiB + 32 KiB and one frame. -/
theorem calculate_dimensions_solver_contract_witness :
    metadata_overhead + 32768 * 1 ≤ 135168 ∧
    (∃ w h, calculate_dimensions 135168 1 = some (w, h) ∧ w = h ∧ 128 ≤ w ∧
      (w % 256 = 0 ∨ w % 128 = 0) ∧ w * h * 1 * 2 ≤ 135168 - metadata_overhead) :=
  ⟨by decide, calculate_dimensions_solver_contract 135168 1 (by decide) (by decide)⟩

/-- C3 counterexample: building the same instance twice with identical
arguments, identical random entropy and identical UID entropy but with
the clock one day later yields different datasets (StudyDate changes),
and keeping study, series and SOP instance UIDs fixed while the
generate_uid entropy differs at the second draw changes the
ImplementationClassUID; so the generated dataset depends on the wall
clock and on per-call fresh UID entropy, contrary to the claim. -/
theorem generate_metadata_depends_on_clock_and_uid_entropy :
    (generate_metadata 5 128 128 (some 1) (some "1.2.3.4") (some "1.2.3.5")
        (fun _ => 0) 0 (fun _ => "2.25.777") 0 "20240101" "120000" ≠
      generate_metadata 5 128 128 (some 1) (some "1.2.3.4") (some "1.2.3.5")
        (fun _ => 0) 0 (fun _ => "2.25.777") 0 "20240102" "120000") ∧
    (generate_metadata 5 128 128 (some 1) (some "1.2.3.4") (some "1.2.3.5")
        (fun _ => 0) 0 (fun _ => "2.25.777") 0 "20240101" "120000" ≠
      generate_metadata 5 128 128 (some 1) (some "1.2.3.4") (some "1.2.3.5")
        (fun _ => 0) 0 (fun k => if k = 0 then "2.25.777" else "2.25.888") 0
        "20240101" "120000") := by
  constructor
  · intro hcontra
    exact absurd (congrArg MetaDS.studyDate hcontra) (by decide)
  · intro hcontra
    exact absurd (congrArg MetaDS.implementationClassUID hcontra) (by decide)

/-- C3 amended: with the study and series UIDs supplied, the
non-deterministic inputs reach exactly five fields.  Changing the clock
values and the UID entropy changes only StudyDate, StudyTime, the
media-storage SOP instance UID, the implementation class UID and the SOP
instance UID; every other field of the dataset is determined by the
arguments and the seeded random stream alone. -/
theorem generate_metadata_nondeterminism_localized
    (num_images width height : ℕ) (instance_number : Option ℕ) (s r : String)
    (rand : ℕ → ℕ) (rk : ℕ) (uid1 uid2 : ℕ → String) (uk : ℕ)
    (d1 t1 d2 t2 : String) :
    generate_metadata num_images width height instance_number (some s) (some r)
        rand rk uid1 uk d1 t1 =
      { generate_metadata num_images width height instance_number (some s) (some r)
          rand rk uid2 uk d2 t2 with
        studyDate := d1
        studyTime := t1
        mediaStorageSOPInstanceUID := uid1 uk
        implementationClassUID := uid1 (uk + 1)
        sopInstanceUID := uid1 uk } :=
  rfl

/-- C4: whenever the post-overhead budget exceeds the clamp ceiling
MAX_PIXEL_DATA_SIZE, the geometry returned by calculate_dimensions has
per-frame pixel bytes w * h * 2 within that ceiling. -/
theorem calculate_dimensions_clamps_to_dicom_limit (total num : ℕ) (h1 : 1 ≤ num)
    (h2 : metadata_overhead + MAX_PIXEL_DATA_SIZE < total) :
    ∃ w h, calculate_dimensions total num = some (w, h) ∧
      w * h * 2 ≤ MAX_PIXEL_DATA_SIZE := by
  have hnz : num ≠ 0 := by omega
  have hov : ¬ total < metadata_overhead := by
    have h3 := Nat.le_add_right metadata_overhead MAX_PIXEL_DATA_SIZE
    omega
  refine ⟨_, _, calculate_dimensions_eq total num hnz hov, ?_⟩
  by_cases hd : 128 ≤ Nat.sqrt (min (total - metadata_overhead) MAX_PIXEL_DATA_SIZE / 2 / num)
  · have hsq := final_dim_sq_le _ hd
    calc max (mri_round_down (Nat.sqrt
            (min (total - metadata_overhead) MAX_PIXEL_DATA_SIZE / 2 / num))) 128 *
          max (mri_round_down (Nat.sqrt
            (min (total - metadata_overhead) MAX_PIXEL_DATA_SIZE / 2 / num))) 128 * 2
          ≤ min (total - metadata_overhead) MAX_PIXEL_DATA_SIZE / 2 / num * 2 :=
            Nat.mul_le_mul_right 2 hsq
      _ ≤ min (total - metadata_overhead) MAX_PIXEL_DATA_SIZE / 2 * 2 :=
            Nat.mul_le_mul_right 2 (Nat.div_le_self _ num)
      _ ≤ min (total - metadata_overhead) MAX_PIXEL_DATA_SIZE :=
            Nat.div_mul_le_self _ 2
      _ ≤ MAX_PIXEL_DATA_SIZE := min_le_right _ _
  · rw [final_dim_eq_128 _ hd]
    decide

/-- C4 witness: a budget one byte above the clamp threshold, one frame. -/
theorem calculate_dimensions_clamps_witness :
    metadata_overhead + MAX_PIXEL_DATA_SIZE < 4284583936 ∧
    (∃ w h, calculate_dimensions 4284583936 1 = some (w, h) ∧
      w * h * 2 ≤ MAX_PIXEL_DATA_SIZE) :=
  ⟨by decide, calculate_dimensions_clamps_to_dicom_limit 4284583936 1 (by decide) (by decide)⟩

/-- C5 counterexample: the magnitude literal passes through CPython
float(), so parse_size of 1.9999999999999999KB rounds the magnitude up to
the binary64 value 2.0 and returns 2048, while the floor of the exact
product is 2047; the claimed identity floor(magnitude * multiplier)
fails for this valid size string. -/
theorem parse_size_binary64_rounding_counterexample :
    parse_size "1.9999999999999999KB" = some 2048 ∧
    (19999999999999999 * 2 ^ 10) / 10 ^ 16 = 2047 :=
  ⟨by decide, by decide⟩

/-- C5 amended: parse_size returns the floor of the exact product for
every valid size string whose magnitude is exactly representable in
binary64 and whose product stays below 2 ^ 1024; in particular the three
concrete equalities of the claim hold, including case insensitivity. -/
theorem parse_size_exact_floor_contract :
    (∀ (s : String) (num f k nd n : ℕ) (e : ℤ),
        matchSizePattern (s.data.map upperChar) = some (num, f, k, nd) →
        float64OfDecimal (4 * nd + 64) num f = some (n, e) →
        exactFloatRepr num f n e →
        num * 2 ^ k / 10 ^ f < 2 ^ 1024 →
        parse_size s = some (num * 2 ^ k / 10 ^ f)) ∧
    parse_size "100KB" = some 102400 ∧
    parse_size "4.5GB" = some 4831838208 ∧
    parse_size "10mb" = parse_size "10MB" := by
  refine ⟨?_, by decide, by decide, by decide⟩
  intro s num f k nd n e h1 h2 hrep hbound
  unfold parse_size
  simp only [h1, h2]
  exact floatTimesPow2Trunc_exact num f k n e hrep hbound

set_option maxRecDepth 8192 in
/-- C5 witness: the exact-floor contract instantiated at 4.5GB, whose
magnitude 45 / 10 is exactly the binary64 value 5066549580791808 *
2 ^ (2 - 52). -/
theorem parse_size_exact_floor_contract_witness :
    parse_size "4.5GB" = some 4831838208 := by
  have h := parse_size_exact_floor_contract.1 "4.5GB" 45 1 30 2 5066549580791808 2
    (by decide) (by decide) (by decide) (by decide)
  rw [show (45 * 2 ^ 30 / 10 ^ 1 : ℕ) = 4831838208 from by decide] at h
  exact h

/-- C6: in one modelled run with an injective UID entropy stream, every
produced dataset carries the shared study UID (draw 0) and series UID
(draw 1), the SOP instance UIDs are pairwise distinct, and the i-th
dataset generated carries instance number i + 1, its 1-based rank. -/
theorem mainRun_series_linkage (n w h : ℕ) (rand : ℕ → ℕ) (uid : ℕ → String)
    (nowDates nowTimes : ℕ → String) (huid : Function.Injective uid) :
    (∀ ds ∈ mainRun n w h rand uid nowDates nowTimes,
        ds.studyInstanceUID = uid 0 ∧ ds.seriesInstanceUID = uid 1) ∧
    (mainRun n w h rand uid nowDates nowTimes).Pairwise
        (fun a b => a.sopInstanceUID ≠ b.sopInstanceUID) ∧
    ∀ i, ∀ hi : i < (mainRun n w h rand uid nowDates nowTimes).length,
        ((mainRun n w h rand uid nowDates nowTimes).get ⟨i, hi⟩).instanceNumber =
          some (i + 1) := by
  have hproj : ∀ j : ℕ,
      (generate_metadata n w h (some (j + 1)) (some (uid 0)) (some (uid 1))
          rand (16 * j) uid (2 + 2 * j) (nowDates j) (nowTimes j)).sopInstanceUID =
        uid (2 + 2 * j) := fun _ => rfl
  refine ⟨?_, ?_, ?_⟩
  · intro ds hds
    simp only [mainRun, List.mem_map] at hds
    obtain ⟨j, _, rfl⟩ := hds
    exact ⟨rfl, rfl⟩
  · simp only [mainRun]
    rw [List.pairwise_map]
    refine List.Pairwise.imp ?_ (List.pairwise_lt_range n)
    intro a b hab heq
    rw [hproj a, hproj b] at heq
    have h2 : 2 + 2 * a = 2 + 2 * b := huid heq
    omega
  · intro i hi
    simp only [mainRun, List.get_eq_getElem, List.getElem_map, List.getElem_range,
      List.length_map, List.length_range] at hi ⊢
    rfl

/-- C6 witness: the linkage applied to a run of three instances over the
injective witness UID stream. -/
theorem mainRun_series_linkage_witness :
    (mainRun 3 128 128 (fun _ => 0) uidRep (fun _ => "20240101")
        (fun _ => "120000")).Pairwise
      (fun a b => a.sopInstanceUID ≠ b.sopInstanceUID) :=
  (mainRun_series_linkage 3 128 128 (fun _ => 0) uidRep (fun _ => "20240101")
      (fun _ => "120000") uidRep_injective).2.1

/-- C7: pixel synthesis is deterministic under a seed.  For every
generator model, the grid (and the frame stack) produced with an explicit
seed does not depend on the incoming global generator state, so two
invocations with the same seed and geometry produce identical output. -/
theorem pixel_synthesis_deterministic_under_seed (S : Type) (next : S → ℕ × S)
    (seedInit : ℕ → S) (num_images width height s : ℕ) (st1 st2 : S) :
    (generate_single_image next seedInit width height (some s) st1).1 =
      (generate_single_image next seedInit width height (some s) st2).1 ∧
    (generate_pixel_data next seedInit num_images width height (some s) st1).1 =
      (generate_pixel_data next seedInit num_images width height (some s) st2).1 :=
  ⟨rfl, rfl⟩

/-- C8 counterexample: parse_size accepts the zero-magnitude string 0KB
and returns 0 bytes instead of rejecting it with InvalidFormat. -/
theorem parse_size_accepts_zero_magnitude : parse_size "0KB" = some 0 := by
  decide

/-- C8 amended: the strict-positivity invariant is enforced not by the
parser but by main (lines 319-323), which rejects a parsed byte count of
zero before any file output; every byte count main accepts is strictly
positive. -/
theorem main_accepts_size_positive (s : String) (n : ℕ)
    (h : main_accepts_size s = some n) : 0 < n := by
  unfold main_accepts_size at h
  rcases hps : parse_size s with _ | m
  · rw [hps] at h
    simp at h
  · rw [hps] at h
    change (if m = 0 then none else some m) = some n at h
    by_cases hm : m = 0
    · rw [if_pos hm] at h
      simp at h
    · rw [if_neg hm] at h
      have h2 := Option.some.inj h
      omega

/-- C8 witness: main accepts 100KB as 102400 bytes, which is positive. -/
theorem main_accepts_size_positive_witness :
    main_accepts_size "100KB" = some 102400 ∧ 0 < 102400 :=
  ⟨by decide, main_accepts_size_positive "100KB" 102400 (by decide)⟩

/-- C9: the encoder model fails with PayloadTooLarge on every record
whose pixel payload exceeds the 32-bit length-field capacity, and on
success the length field carries the exact payload length, within the
capacity, so it is never truncated or corrupted. -/
theorem encodeInstance_payload_too_large (r : InstanceRecord) :
    (2 ^ 32 - 1 < r.pixelDataByteLength →
      encodeInstance r = Except.error EncodeError.payloadTooLarge) ∧
    ∀ f, encodeInstance r = Except.ok f →
      f.pixelDataLengthField = r.pixelDataByteLength ∧
      f.pixelDataLengthField ≤ 2 ^ 32 - 1 := by
  constructor
  · intro hbig
    unfold encodeInstance
    rw [if_pos hbig]
  · intro f hf
    unfold encodeInstance at hf
    by_cases hbig : 2 ^ 32 - 1 < r.pixelDataByteLength
    · rw [if_pos hbig] at hf
      exact absurd hf (by simp)
    · rw [if_neg hbig] at hf
      cases Except.ok.inj hf
      exact ⟨rfl, Nat.le_of_not_lt hbig⟩

/-- C9 witness: a 65536-square record whose payload of 2 ^ 33 bytes
exceeds the 32-bit capacity is rejected with PayloadTooLarge. -/
theorem encodeInstance_payload_too_large_witness :
    2 ^ 32 - 1 <
        (InstanceRecord.mk "2.25.1" "2.25.2" "2.25.3" 1 65536 65536).pixelDataByteLength ∧
    encodeInstance (InstanceRecord.mk "2.25.1" "2.25.2" "2.25.3" 1 65536 65536) =
      Except.error EncodeError.payloadTooLarge :=
  ⟨by decide, (encodeInstance_payload_too_large _).1 (by decide)⟩

/-- C10: for every frame count at least 1, calculate_dimensions raises
(the math domain error of the square root on a negative sample budget)
exactly when the byte budget is strictly below the 100 KiB overhead, and
returns a geometry for every budget of at least 100 KiB. -/
theorem calculate_dimensions_raises_iff_budget_below_overhead (total num : ℕ)
    (h : 1 ≤ num) :
    calculate_dimensions total num = none ↔ total < metadata_overhead := by
  unfold calculate_dimensions
  rw [if_neg (show ¬ num = 0 by omega)]
  by_cases ht : total < metadata_overhead
  · rw [if_pos ht]
    exact iff_of_true rfl ht
  · rw [if_neg ht]
    exact iff_of_false (by simp) ht

/-- C10 witness: one byte below the overhead raises, the exact overhead
does not. -/
theorem calculate_dimensions_raises_iff_witness :
    calculate_dimensions 102399 1 = none ∧ calculate_dimensions 102400 1 ≠ none :=
  ⟨(calculate_dimensions_raises_iff_budget_below_overhead 102399 1 (by decide)).mpr
      (by decide),
   fun hc => absurd
     ((calculate_dimensions_raises_iff_budget_below_overhead 102400 1 (by decide)).mp hc)
     (by decide)⟩
